import Mathlib

/- Shallow embedding of the Product-Photography repository
   (src/image_processor.py and src/app.py).

   External effects - PIL image operations, OpenCV, rembg, the google-genai
   SDK, the filesystem, the wall clock, uuid generation and werkzeug's
   secure_filename - are modelled as an explicit environment `Env` of
   (possibly failing) operations.  Python exceptions are modelled with
   `Except String`: a raised exception is `Except.error msg` with `msg` the
   exception's message (`str(e)`), and `try/except` blocks are translated
   as explicit matches on those results, returning the value the Python
   code returns from the handler. -/

deriving instance DecidableEq for Except

namespace Photo

/-- A PIL image: its `mode` string (`RGB`, `RGBA`, `P`, ...) plus an
abstract identity for its pixel content, so that distinct images can be
told apart. -/
structure Img where
  mode : String
  pix : Nat
deriving DecidableEq

/-- One element of `response.candidates[0].content.parts` in the Gemini
response: `inline_data` is `none` when the part has no inline blob, and
`some bytes` otherwise (an empty list models falsy/absent `data`). -/
structure InlinePart where
  inline_data : Option (List Nat)
deriving DecidableEq

/-- The remote Gemini service and its client library: constructing the
client, the `generate_content` call (arguments: model name, prompt, image;
result: the parts of the first candidate's content, or a raised transport
error), and decoding returned image bytes (`Image.open(BytesIO(...))`). -/
structure Remote where
  clientInit : String → Except String Unit
  generateContent : String → String → Img → Except String (List InlinePart)
  openBytes : List Nat → Except String Img

/-- The ambient environment of src: every external operation the two
source files call, plus the module-level `SDK_AVAILABLE` flag.  The clock
hands out the `time.time()` values observed at the start and at the end of
processing a given image path. -/
structure Env where
  sdkAvailable : Bool
  convertRGB : Img → Except String Img
  compositeWhite : Img → Except String Img
  cvBlur : Img → Except String Img
  rembgRemove : Img → Except String Img
  compositeBg : Img → Nat × Nat × Nat → Except String Img
  openFile : String → Except String Img
  saveImage : Img → String → Except String Unit
  remote : Remote
  timeStart : String → ℚ
  timeEnd : String → ℚ
  uuid : Nat → String
  secure : String → String

/-- image_processor.py line 20. -/
def GEMINI_MODEL_NAME : String := "gemini-2.0-flash-exp-image-generation"

/-- `reduce_noise_cv` (image_processor.py lines 28-38).  The local
variable `pil_image` is reassigned by the `convert('RGB')` call when the
mode is `RGBA` or `P`, so the value returned by the `except` handler is
the current value of that local, not necessarily the argument. -/
def reduce_noise_cv (env : Env) (pil_image : Img) : Except String Img :=
  if pil_image.mode = "RGBA" ∨ pil_image.mode = "P" then
    match env.convertRGB pil_image with
    | Except.error _ => Except.ok pil_image
    | Except.ok converted =>
      match env.cvBlur converted with
      | Except.ok blurred => Except.ok blurred
      | Except.error _ => Except.ok converted
  else
    match env.cvBlur pil_image with
    | Except.ok blurred => Except.ok blurred
    | Except.error _ => Except.ok pil_image

/-- `remove_background_rembg` (image_processor.py lines 40-52).
`bg_color` is the 4-tuple argument; `compositeBg` models the
`Image.new`/`paste` compositing over `bg_color[:3]`. -/
def remove_background_rembg (env : Env) (pil_image : Img)
    (bg_color : Nat × Nat × Nat × Nat) : Except String Img :=
  match env.rembgRemove pil_image with
  | Except.error _ => Except.ok pil_image
  | Except.ok result =>
    if bg_color.2.2.2 = 0 then Except.ok result
    else
      match env.compositeBg result (bg_color.1, bg_color.2.1, bg_color.2.2.1) with
      | Except.ok background => Except.ok background
      | Except.error _ => Except.ok pil_image

/-- The `for part in response.candidates[0].content.parts` loop
(image_processor.py lines 75-78): the first part whose `inline_data` and
`inline_data.data` are both truthy. -/
def firstInline : List InlinePart → Option (List Nat)
  | [] => none
  | p :: ps =>
    match p.inline_data with
    | some d => if d ≠ [] then some d else firstInline ps
    | none => firstInline ps

/-- The `try` block of `call_gemini_image_editing` (image_processor.py
lines 58-78): client construction, normalisation of the image to RGB
(compositing an RGBA image over white, converting otherwise), the
`generate_content` call, and extraction of the first inline image.
`Except.ok none` means the block ran to completion without an early
`return` (no image payload found). -/
def gemini_try (env : Env) (api_key model_name prompt : String) (img : Img) :
    Except String (Option Img) :=
  match env.remote.clientInit api_key with
  | Except.error e => Except.error e
  | Except.ok _ =>
    match (if img.mode = "RGBA" then env.compositeWhite img else env.convertRGB img) with
    | Except.error e => Except.error e
    | Except.ok image_to_send =>
      match env.remote.generateContent model_name prompt image_to_send with
      | Except.error e => Except.error e
      | Except.ok parts =>
        match firstInline parts with
        | some image_bytes =>
          match env.remote.openBytes image_bytes with
          | Except.error e => Except.error e
          | Except.ok out => Except.ok (some out)
        | none => Except.ok none

/-- `call_gemini_image_editing` (image_processor.py lines 54-83): returns
`None` without touching the network when the SDK is unavailable or the
input image is `None`; otherwise any exception of the `try` block is
wrapped and re-raised as `Exception(f"Gemini API error: {e}")`, and
falling through the loop returns `None`. -/
def call_gemini_image_editing (env : Env) (api_key model_name prompt : String)
    (input_pil_image : Option Img) : Except String (Option Img) :=
  match input_pil_image with
  | none => Except.ok none
  | some img =>
    if env.sdkAvailable = false then Except.ok none
    else
      match gemini_try env api_key model_name prompt img with
      | Except.ok r => Except.ok r
      | Except.error e => Except.error ("Gemini API error: " ++ e)

/-- `os.path.join` for the relative paths the code builds. -/
def pathJoin (a b : String) : String := a ++ "/" ++ b

/-- Characters after the last occurrence of `c` (the whole list when `c`
is absent). -/
def afterLast (c : Char) (l : List Char) : List Char :=
  (List.takeWhile (fun x => x != c) l.reverse).reverse

/-- `os.path.basename`. -/
def basename (s : String) : String := String.mk (afterLast '/' s.data)

/-- Index of the last occurrence of `c`, if any. -/
def lastIdxOf (c : Char) : List Char → Option Nat
  | [] => none
  | x :: xs =>
    match lastIdxOf c xs with
    | some i => some (i + 1)
    | none => if x = c then some 0 else none

/-- The root part of `os.path.splitext` for a path without separators:
strip from the last dot, unless every character before it is a dot. -/
def splitextRoot (s : String) : String :=
  match lastIdxOf '.' s.data with
  | none => s
  | some i =>
    if (s.data.take i).all (fun ch => ch = '.') then s
    else String.mk (s.data.take i)

/-- The per-image result record (image_processor.py lines 87-93) in its
initial state. -/
structure PResult where
  success : Bool
  preprocessed_path : Option String
  gemini_path : Option String
  error : Option String
  processing_time : ℚ
deriving DecidableEq

def initResult : PResult :=
  { success := false, preprocessed_path := none, gemini_path := none,
    error := none, processing_time := 0 }

/-- Python `round(x, 2)`: round to the nearest multiple of 1/100. -/
def round2 (q : ℚ) : ℚ := ((⌊q * 100 + 1 / 2⌋ : ℤ) : ℚ) / 100

/-- The `try` block of `process_image` (image_processor.py lines 98-125),
threading the mutable `result` dict.  The second component is the
exception escaping the block, if any; the first is the dict at that
moment (the `except` handler then stores the message into `error`). -/
def process_image_try (env : Env)
    (image_path prompt api_key preprocessed_dir gemini_output_dir base_name : String)
    (result : PResult) : PResult × Option String :=
  match env.openFile image_path with
  | Except.error e => (result, some e)
  | Except.ok img =>
    match reduce_noise_cv env img with
    | Except.error e => (result, some e)
    | Except.ok denoised =>
      match remove_background_rembg env denoised (255, 255, 255, 0) with
      | Except.error e => (result, some e)
      | Except.ok bg_removed =>
        match env.saveImage bg_removed (pathJoin preprocessed_dir (base_name ++ "_pre.png")) with
        | Except.error e => (result, some e)
        | Except.ok _ =>
          let result1 :=
            { result with
                preprocessed_path := some (pathJoin ("preprocessed") (base_name ++ "_pre.png")) }
          if env.sdkAvailable = true ∧ api_key ≠ "" then
            match call_gemini_image_editing env api_key GEMINI_MODEL_NAME prompt (some bg_removed) with
            | Except.error e => (result1, some e)
            | Except.ok none => ({ result1 with error := some ("Gemini editing failed") }, none)
            | Except.ok (some edited) =>
              match env.saveImage edited (pathJoin gemini_output_dir (base_name ++ "_gemini.png")) with
              | Except.error e => (result1, some e)
              | Except.ok _ =>
                ({ result1 with
                    gemini_path := some (pathJoin ("gemini_edited") (base_name ++ "_gemini.png")),
                    success := true }, none)
          else
            ({ result1 with error := some ("SDK or API key missing") }, none)

/-- Lines 126-129 of image_processor.py: the `except` handler stores the
escaped exception's message into `error`, and the elapsed time (rounded
to two decimal places) is stored in every case. -/
def finishResult : PResult × Option String → ℚ → PResult
  | (r, some e), t => { r with error := some e, processing_time := t }
  | (r, none), t => { r with processing_time := t }

/-- `process_image` (image_processor.py lines 85-130). -/
def process_image (env : Env)
    (image_path prompt api_key preprocessed_dir gemini_output_dir : String) : PResult :=
  finishResult
    (process_image_try env image_path prompt api_key preprocessed_dir gemini_output_dir
      (splitextRoot (basename image_path)) initResult)
    (round2 (env.timeEnd image_path - env.timeStart image_path))

/-- A file entry of the multipart `files[]` field; werkzeug `FileStorage`
truthiness is `bool(filename)`. -/
structure UploadedFile where
  filename : String
deriving DecidableEq

/-- The parts of the HTTP request that `process_images` (app.py) reads. -/
structure Request where
  hasFilesField : Bool
  files : List UploadedFile
  promptField : Option String
  apiKeyField : Option String
deriving DecidableEq

/-- One element of the response's `results` list: the `process_image`
dict extended with `original_filename` (app.py line 67). -/
structure ResultEntry where
  result : PResult
  original_filename : String
deriving DecidableEq

/-- The two response shapes of the `/api/process` route: HTTP 400 with an
error message, or HTTP 200 with the results list. -/
inductive Response where
  | badRequest (error : String)
  | ok (results : List ResultEntry)
deriving DecidableEq

/-- app.py line 19. -/
def ALLOWED_EXTENSIONS : List String := ["png", "jpg", "jpeg", "webp"]

/-- `allowed_file` (app.py lines 27-28): there is a dot, and the part
after the last dot, lowercased, is in the allowed set. -/
def allowed_file (filename : String) : Bool :=
  filename.data.contains '.' &&
    ALLOWED_EXTENSIONS.contains (String.mk ((afterLast '.' filename.data).map Char.toLower))

/-- The per-file guard at app.py line 55: `if file and allowed_file(file.filename)`. -/
def fileAccepted (f : UploadedFile) : Bool :=
  (f.filename != "") && allowed_file f.filename

def UPLOAD_FOLDER : String := "uploads"

def PREPROCESSED_DIR : String := pathJoin ("output") ("preprocessed")

def GEMINI_OUTPUT_DIR : String := pathJoin ("output") ("gemini_edited")

/-- The per-file loop of `process_images` (app.py lines 53-74): skipped
files contribute nothing; accepted files are saved under a generated
unique name and run through `process_image`.  The counter feeds the uuid
generator. -/
def processFiles (env : Env) (prompt api_key : String) :
    List UploadedFile → Nat → List ResultEntry
  | [], _ => []
  | f :: rest, i =>
    if fileAccepted f then
      { result :=
          process_image env
            (pathJoin UPLOAD_FOLDER (env.uuid i ++ "_" ++ env.secure f.filename))
            prompt api_key PREPROCESSED_DIR GEMINI_OUTPUT_DIR,
        original_filename := env.secure f.filename } :: processFiles env prompt api_key rest (i + 1)
    else
      processFiles env prompt api_key rest (i + 1)

/-- app.py line 41: `request.form.get('api_key', os.environ.get('GOOGLE_API_KEY', ''))`. -/
def resolvedApiKey (req : Request) (envApiKey : Option String) : String :=
  (req.apiKeyField).getD (envApiKey.getD "")

/-- `process_images` (app.py lines 34-76): the validation checks in
source order, then the per-file loop.  `envApiKey` is the ambient
`GOOGLE_API_KEY` environment variable. -/
def process_images (env : Env) (req : Request) (envApiKey : Option String) : Response :=
  if req.hasFilesField = false then Response.badRequest ("No files provided")
  else if resolvedApiKey req envApiKey = "" then Response.badRequest ("API key is required")
  else if req.files = [] then Response.badRequest ("No files selected")
  else if req.files.length > 10 then Response.badRequest ("Maximum 10 files allowed")
  else Response.ok (processFiles env ((req.promptField).getD "") (resolvedApiKey req envApiKey) req.files 0)

/- ------------------------------------------------------------------ -/
/- Helper lemmas                                                       -/
/- ------------------------------------------------------------------ -/

lemma reduce_noise_total (env : Env) (img : Img) :
    ∃ o, reduce_noise_cv env img = Except.ok o := by
  unfold reduce_noise_cv
  split
  · rcases h : env.convertRGB img with e | c
    · exact ⟨img, by simp [h]⟩
    · rcases h2 : env.cvBlur c with e | b
      · exact ⟨c, by simp [h, h2]⟩
      · exact ⟨b, by simp [h, h2]⟩
  · rcases h : env.cvBlur img with e | b
    · exact ⟨img, by simp [h]⟩
    · exact ⟨b, by simp [h]⟩

lemma remove_background_total (env : Env) (img : Img) (bg : Nat × Nat × Nat × Nat) :
    ∃ o, remove_background_rembg env img bg = Except.ok o := by
  unfold remove_background_rembg
  rcases h : env.rembgRemove img with e | r
  · exact ⟨img, by simp [h]⟩
  · by_cases hz : bg.2.2.2 = 0
    · exact ⟨r, by simp [h, hz]⟩
    · rcases h2 : env.compositeBg r (bg.1, bg.2.1, bg.2.2.1) with e | b
      · exact ⟨img, by simp [h, hz, h2]⟩
      · exact ⟨b, by simp [h, hz, h2]⟩

lemma try_eq_open_error (env : Env) (p pr k pd gd bn : String) (r0 : PResult) (e : String)
    (h : env.openFile p = Except.error e) :
    process_image_try env p pr k pd gd bn r0 = (r0, some e) := by
  unfold process_image_try
  rw [h]

lemma try_eq_save_error (env : Env) (p pr k pd gd bn : String) (r0 : PResult)
    (img d b : Img) (e : String)
    (hopen : env.openFile p = Except.ok img)
    (hrn : reduce_noise_cv env img = Except.ok d)
    (hbg : remove_background_rembg env d (255, 255, 255, 0) = Except.ok b)
    (hsave : env.saveImage b (pathJoin pd (bn ++ "_pre.png")) = Except.error e) :
    process_image_try env p pr k pd gd bn r0 = (r0, some e) := by
  unfold process_image_try
  simp only [hopen, hrn, hbg, hsave]

lemma try_eq_config (env : Env) (p pr k pd gd bn : String) (r0 : PResult)
    (img d b : Img)
    (hopen : env.openFile p = Except.ok img)
    (hrn : reduce_noise_cv env img = Except.ok d)
    (hbg : remove_background_rembg env d (255, 255, 255, 0) = Except.ok b)
    (hsave : env.saveImage b (pathJoin pd (bn ++ "_pre.png")) = Except.ok ())
    (hcond : ¬(env.sdkAvailable = true ∧ k ≠ "")) :
    process_image_try env p pr k pd gd bn r0 =
      ({ r0 with
          preprocessed_path := some (pathJoin ("preprocessed") (bn ++ "_pre.png")),
          error := some ("SDK or API key missing") }, none) := by
  unfold process_image_try
  simp only [hopen, hrn, hbg, hsave, if_neg hcond]

lemma try_eq_gem_raise (env : Env) (p pr k pd gd bn : String) (r0 : PResult)
    (img d b : Img) (e : String)
    (hopen : env.openFile p = Except.ok img)
    (hrn : reduce_noise_cv env img = Except.ok d)
    (hbg : remove_background_rembg env d (255, 255, 255, 0) = Except.ok b)
    (hsave : env.saveImage b (pathJoin pd (bn ++ "_pre.png")) = Except.ok ())
    (hcond : env.sdkAvailable = true ∧ k ≠ "")
    (hg : call_gemini_image_editing env k GEMINI_MODEL_NAME pr (some b) = Except.error e) :
    process_image_try env p pr k pd gd bn r0 =
      ({ r0 with
          preprocessed_path := some (pathJoin ("preprocessed") (bn ++ "_pre.png")) }, some e) := by
  unfold process_image_try
  simp only [hopen, hrn, hbg, hsave, if_pos hcond, hg]

lemma try_eq_gem_none (env : Env) (p pr k pd gd bn : String) (r0 : PResult)
    (img d b : Img)
    (hopen : env.openFile p = Except.ok img)
    (hrn : reduce_noise_cv env img = Except.ok d)
    (hbg : remove_background_rembg env d (255, 255, 255, 0) = Except.ok b)
    (hsave : env.saveImage b (pathJoin pd (bn ++ "_pre.png")) = Except.ok ())
    (hcond : env.sdkAvailable = true ∧ k ≠ "")
    (hg : call_gemini_image_editing env k GEMINI_MODEL_NAME pr (some b) = Except.ok none) :
    process_image_try env p pr k pd gd bn r0 =
      ({ r0 with
          preprocessed_path := some (pathJoin ("preprocessed") (bn ++ "_pre.png")),
          error := some ("Gemini editing failed") }, none) := by
  unfold process_image_try
  simp only [hopen, hrn, hbg, hsave, if_pos hcond, hg]

lemma try_eq_gem_save_error (env : Env) (p pr k pd gd bn : String) (r0 : PResult)
    (img d b ed : Img) (e : String)
    (hopen : env.openFile p = Except.ok img)
    (hrn : reduce_noise_cv env img = Except.ok d)
    (hbg : remove_background_rembg env d (255, 255, 255, 0) = Except.ok b)
    (hsave : env.saveImage b (pathJoin pd (bn ++ "_pre.png")) = Except.ok ())
    (hcond : env.sdkAvailable = true ∧ k ≠ "")
    (hg : call_gemini_image_editing env k GEMINI_MODEL_NAME pr (some b) = Except.ok (some ed))
    (hs2 : env.saveImage ed (pathJoin gd (bn ++ "_gemini.png")) = Except.error e) :
    process_image_try env p pr k pd gd bn r0 =
      ({ r0 with
          preprocessed_path := some (pathJoin ("preprocessed") (bn ++ "_pre.png")) }, some e) := by
  unfold process_image_try
  simp only [hopen, hrn, hbg, hsave, if_pos hcond, hg, hs2]

lemma try_eq_success (env : Env) (p pr k pd gd bn : String) (r0 : PResult)
    (img d b ed : Img)
    (hopen : env.openFile p = Except.ok img)
    (hrn : reduce_noise_cv env img = Except.ok d)
    (hbg : remove_background_rembg env d (255, 255, 255, 0) = Except.ok b)
    (hsave : env.saveImage b (pathJoin pd (bn ++ "_pre.png")) = Except.ok ())
    (hcond : env.sdkAvailable = true ∧ k ≠ "")
    (hg : call_gemini_image_editing env k GEMINI_MODEL_NAME pr (some b) = Except.ok (some ed))
    (hs2 : env.saveImage ed (pathJoin gd (bn ++ "_gemini.png")) = Except.ok ()) :
    process_image_try env p pr k pd gd bn r0 =
      ({ r0 with
          preprocessed_path := some (pathJoin ("preprocessed") (bn ++ "_pre.png")),
          gemini_path := some (pathJoin ("gemini_edited") (bn ++ "_gemini.png")),
          success := true }, none) := by
  unfold process_image_try
  simp only [hopen, hrn, hbg, hsave, if_pos hcond, hg, hs2]

lemma process_image_eq (env : Env) (p pr k pd gd : String) {x : PResult × Option String}
    (h : process_image_try env p pr k pd gd (splitextRoot (basename p)) initResult = x) :
    process_image env p pr k pd gd =
      finishResult x (round2 (env.timeEnd p - env.timeStart p)) := by
  unfold process_image
  rw [h]

lemma finishResult_time (x : PResult × Option String) (t : ℚ) :
    (finishResult x t).processing_time = t := by
  rcases x with ⟨r, _ | e⟩ <;> rfl

/-- Exhaustive enumeration of the outcomes of the `try` block of
`process_image` when started on the fresh result record. -/
lemma try_cases (env : Env) (p pr k pd gd bn : String) :
    (∃ e, process_image_try env p pr k pd gd bn initResult = (initResult, some e)) ∨
    (∃ e, process_image_try env p pr k pd gd bn initResult =
      ({ initResult with
          preprocessed_path := some (pathJoin ("preprocessed") (bn ++ "_pre.png")) }, some e)) ∨
    (process_image_try env p pr k pd gd bn initResult =
      ({ initResult with
          preprocessed_path := some (pathJoin ("preprocessed") (bn ++ "_pre.png")),
          error := some ("SDK or API key missing") }, none) ∧
      ¬(env.sdkAvailable = true ∧ k ≠ "")) ∨
    (process_image_try env p pr k pd gd bn initResult =
      ({ initResult with
          preprocessed_path := some (pathJoin ("preprocessed") (bn ++ "_pre.png")),
          error := some ("Gemini editing failed") }, none) ∧
      (env.sdkAvailable = true ∧ k ≠ "")) ∨
    (process_image_try env p pr k pd gd bn initResult =
      ({ initResult with
          preprocessed_path := some (pathJoin ("preprocessed") (bn ++ "_pre.png")),
          gemini_path := some (pathJoin ("gemini_edited") (bn ++ "_gemini.png")),
          success := true }, none)) := by
  rcases hopen : env.openFile p with e | img
  · exact Or.inl ⟨e, try_eq_open_error env p pr k pd gd bn initResult e hopen⟩
  obtain ⟨d, hrn⟩ := reduce_noise_total env img
  obtain ⟨b, hbg⟩ := remove_background_total env d (255, 255, 255, 0)
  rcases hsave : env.saveImage b (pathJoin pd (bn ++ "_pre.png")) with e | u
  · exact Or.inl ⟨e, try_eq_save_error env p pr k pd gd bn initResult img d b e hopen hrn hbg hsave⟩
  cases u
  by_cases hcond : env.sdkAvailable = true ∧ k ≠ ""
  · rcases hg : call_gemini_image_editing env k GEMINI_MODEL_NAME pr (some b) with e | r
    · exact Or.inr (Or.inl ⟨e,
        try_eq_gem_raise env p pr k pd gd bn initResult img d b e hopen hrn hbg hsave hcond hg⟩)
    rcases r with _ | ed
    · exact Or.inr (Or.inr (Or.inr (Or.inl
        ⟨try_eq_gem_none env p pr k pd gd bn initResult img d b hopen hrn hbg hsave hcond hg,
         hcond⟩)))
    rcases hs2 : env.saveImage ed (pathJoin gd (bn ++ "_gemini.png")) with e | u2
    · exact Or.inr (Or.inl ⟨e,
        try_eq_gem_save_error env p pr k pd gd bn initResult img d b ed e
          hopen hrn hbg hsave hcond hg hs2⟩)
    cases u2
    exact Or.inr (Or.inr (Or.inr (Or.inr
      (try_eq_success env p pr k pd gd bn initResult img d b ed hopen hrn hbg hsave hcond hg hs2))))
  · exact Or.inr (Or.inr (Or.inl
      ⟨try_eq_config env p pr k pd gd bn initResult img d b hopen hrn hbg hsave hcond, hcond⟩))

lemma processFiles_map_filenames (env : Env) (prompt key : String) :
    ∀ (files : List UploadedFile) (i : Nat),
      (processFiles env prompt key files i).map (fun en => en.original_filename) =
        (files.filter fileAccepted).map (fun f => env.secure f.filename) := by
  intro files
  induction files with
  | nil => intro i; rfl
  | cons f rest ih =>
    intro i
    cases hf : fileAccepted f
    · simp [processFiles, hf, ih]
    · simp [processFiles, hf, ih]

lemma processFiles_length (env : Env) (prompt key : String)
    (files : List UploadedFile) (i : Nat) :
    (processFiles env prompt key files i).length = (files.filter fileAccepted).length := by
  have h := congrArg List.length (processFiles_map_filenames env prompt key files i)
  simpa using h

lemma mem_processFiles (env : Env) (prompt key : String) :
    ∀ (files : List UploadedFile) (i : Nat) (en : ResultEntry),
      en ∈ processFiles env prompt key files i →
      ∃ p, en.result = process_image env p prompt key PREPROCESSED_DIR GEMINI_OUTPUT_DIR := by
  intro files
  induction files with
  | nil =>
    intro i en h
    simp [processFiles] at h
  | cons f rest ih =>
    intro i en h
    cases hf : fileAccepted f
    · simp only [processFiles, hf, Bool.false_eq_true, if_false] at h
      exact ih _ _ h
    · simp only [processFiles, hf, if_true, List.mem_cons] at h
      rcases h with h | h
      · exact ⟨_, by rw [h]⟩
      · exact ih _ _ h

lemma process_image_time (env : Env) (p pr k pd gd : String) :
    (process_image env p pr k pd gd).processing_time =
      round2 (env.timeEnd p - env.timeStart p) := by
  unfold process_image
  rw [finishResult_time]

lemma round2_nonneg (q : ℚ) (h : 0 ≤ q) : 0 ≤ round2 q := by
  have h1 : (0 : ℤ) ≤ ⌊q * 100 + 1 / 2⌋ := by
    apply Int.le_floor.mpr
    have h2 : (0 : ℚ) ≤ q * 100 := by positivity
    push_cast
    linarith
  unfold round2
  have h3 : (0 : ℚ) ≤ ((⌊q * 100 + 1 / 2⌋ : ℤ) : ℚ) := by exact_mod_cast h1
  exact div_nonneg h3 (by norm_num)

/- ------------------------------------------------------------------ -/
/- Concrete environments for witnesses and counterexamples             -/
/- ------------------------------------------------------------------ -/

def imgRGB : Img := { mode := "RGB", pix := 0 }

def remoteOk : Remote :=
  { clientInit := fun _ => Except.ok (),
    generateContent := fun _ _ _ => Except.ok [{ inline_data := some [1] }],
    openBytes := fun _ => Except.ok { mode := "RGB", pix := 7 } }

/-- An environment in which every external operation succeeds. -/
def envBase : Env :=
  { sdkAvailable := true,
    convertRGB := fun i => Except.ok { mode := "RGB", pix := i.pix },
    compositeWhite := fun i => Except.ok { mode := "RGB", pix := i.pix },
    cvBlur := fun i => Except.ok i,
    rembgRemove := fun i => Except.ok { mode := "RGBA", pix := i.pix },
    compositeBg := fun i _ => Except.ok i,
    openFile := fun _ => Except.ok { mode := "RGB", pix := 3 },
    saveImage := fun _ _ => Except.ok (),
    remote := remoteOk,
    timeStart := fun _ => 0,
    timeEnd := fun _ => 1,
    uuid := fun _ => "u",
    secure := fun s => s }

def envGeminiDown : Env :=
  { envBase with remote := { remoteOk with clientInit := fun _ => Except.error ("down") } }

def envBlurFails : Env :=
  { envBase with cvBlur := fun _ => Except.error ("cv fail") }

def envRembgFails : Env :=
  { envBase with rembgRemove := fun _ => Except.error ("rembg fail") }

/- ------------------------------------------------------------------ -/
/- Claim theorems                                                      -/
/- ------------------------------------------------------------------ -/

/-- C1: every `ProcessingResult` returned by `process_image` has
`success = true` iff both the preprocessed path and the final edited
(gemini) path are present (non-null) and the error field is null. -/
theorem c1_success_iff (env : Env) (p pr k pd gd : String) :
    (process_image env p pr k pd gd).success = true ↔
      ((process_image env p pr k pd gd).preprocessed_path ≠ none ∧
       (process_image env p pr k pd gd).gemini_path ≠ none ∧
       (process_image env p pr k pd gd).error = none) := by
  rcases try_cases env p pr k pd gd (splitextRoot (basename p)) with
    ⟨e, h⟩ | ⟨e, h⟩ | ⟨h, hc⟩ | ⟨h, hc⟩ | h <;>
      rw [process_image_eq env p pr k pd gd h] <;>
      simp [finishResult, initResult]

/-- C9: the noise-reduction step and the background-removal step never
raise to their caller: for every environment behaviour they return an
image (`Except.ok`); the Generative Edit Stage, by contrast, can raise. -/
theorem c9_stages_never_raise :
    (∀ (env : Env) (img : Img), ∃ o, reduce_noise_cv env img = Except.ok o) ∧
    (∀ (env : Env) (img : Img) (bg : Nat × Nat × Nat × Nat),
      ∃ o, remove_background_rembg env img bg = Except.ok o) ∧
    (∃ (env : Env) (k pr : String) (img : Img) (e : String),
      call_gemini_image_editing env k GEMINI_MODEL_NAME pr (some img) = Except.error e) := by
  refine ⟨reduce_noise_total, remove_background_total,
    envGeminiDown, "k", "p", imgRGB, "Gemini API error: down", ?_⟩
  decide

/-- C5 counterexample: with an RGBA input, when the RGB conversion
succeeds and the blur then throws, `reduce_noise_cv` returns the
RGB-converted image, which is not bit-for-bit equal to the original
input, contradicting the claim that the step returns its input image
unchanged whenever its internal transform throws. -/
theorem c5_counterexample :
    envBlurFails.cvBlur { mode := "RGB", pix := 5 } = Except.error ("cv fail") ∧
    reduce_noise_cv envBlurFails { mode := "RGBA", pix := 5 } =
      Except.ok { mode := "RGB", pix := 5 } ∧
    ({ mode := "RGB", pix := 5 } : Img) ≠ { mode := "RGBA", pix := 5 } := by
  refine ⟨rfl, ?_, by decide⟩
  decide

/-- C5 (amended): if the background-removal step's internal transform
throws, the step returns its input unchanged; if the noise-reduction
step's transform throws, it returns its input unchanged except when the
input needed RGB conversion (mode `RGBA` or `P`) and that conversion had
already succeeded, in which case it returns the RGB-converted image. -/
theorem c5_degrade_gracefully (env : Env) (img img2 : Img)
    (bg : Nat × Nat × Nat × Nat) (e : String) :
    (¬(img.mode = "RGBA" ∨ img.mode = "P") → env.cvBlur img = Except.error e →
      reduce_noise_cv env img = Except.ok img) ∧
    ((img.mode = "RGBA" ∨ img.mode = "P") → env.convertRGB img = Except.error e →
      reduce_noise_cv env img = Except.ok img) ∧
    ((img.mode = "RGBA" ∨ img.mode = "P") → env.convertRGB img = Except.ok img2 →
      env.cvBlur img2 = Except.error e → reduce_noise_cv env img = Except.ok img2) ∧
    (env.rembgRemove img = Except.error e →
      remove_background_rembg env img bg = Except.ok img) ∧
    (∀ r, env.rembgRemove img = Except.ok r → ¬ bg.2.2.2 = 0 →
      env.compositeBg r (bg.1, bg.2.1, bg.2.2.1) = Except.error e →
      remove_background_rembg env img bg = Except.ok img) := by
  refine ⟨?_, ?_, ?_, ?_, ?_⟩
  · intro hm hb
    unfold reduce_noise_cv
    rw [if_neg hm]
    simp [hb]
  · intro hm hc
    unfold reduce_noise_cv
    rw [if_pos hm]
    simp [hc]
  · intro hm hc hb
    unfold reduce_noise_cv
    rw [if_pos hm]
    simp [hc, hb]
  · intro hr
    unfold remove_background_rembg
    simp [hr]
  · intro r hr hz hcb
    unfold remove_background_rembg
    simp [hr, hz, hcb]

theorem c5_degrade_gracefully_witness :
    remove_background_rembg envRembgFails { mode := "RGB", pix := 9 } (255, 255, 255, 0) =
      Except.ok { mode := "RGB", pix := 9 } :=
  (c5_degrade_gracefully envRembgFails { mode := "RGB", pix := 9 } { mode := "RGB", pix := 9 }
    (255, 255, 255, 0) ("rembg fail")).2.2.2.1 (by decide)

def reqGifOnly : Request :=
  { hasFilesField := true, files := [{ filename := "a.gif" }],
    promptField := none, apiKeyField := some "k" }

/-- C3 counterexample: a request whose only file has a disallowed
extension leaves zero files after filtering, yet the route does not fail
with HTTP 400 - it returns HTTP 200 with an empty results list,
contradicting the claimed "exactly when" condition. -/
theorem c3_counterexample :
    process_images envBase reqGifOnly none = Response.ok [] ∧
    reqGifOnly.files ≠ [] ∧
    reqGifOnly.files.filter fileAccepted = [] := by
  refine ⟨?_, by decide, by decide⟩
  decide

/-- C3 (amended): a batch request fails with an HTTP 400 validation
error, before any per-image processing, exactly when: the files field is
missing, the resolved credential (request field, else environment) is
empty, the file list is empty, or more than 10 files are submitted.
Zero files remaining after extension filtering is NOT a 400: it yields
an HTTP 200 response with an empty results list. -/
theorem c3_validation_iff (env : Env) (req : Request) (envKey : Option String) :
    (∃ msg, process_images env req envKey = Response.badRequest msg) ↔
      (req.hasFilesField = false ∨ resolvedApiKey req envKey = "" ∨
       req.files = [] ∨ req.files.length > 10) := by
  unfold process_images
  split_ifs with h1 h2 h3 h4
  · simp [h1]
  · simp [h1, h2]
  · simp [h1, h2, h3]
  · simp [h1, h2, h3, h4]
  · simp [h1, h2, h3, h4]

def envOpenFails : Env :=
  { envBase with openFile := fun _ => Except.error ("boom") }

def envNoPayload : Env :=
  { envBase with remote := { remoteOk with generateContent := fun _ _ _ => Except.ok [] } }

def envNoSdk : Env :=
  { envBase with sdkAvailable := false }

def reqPng : Request :=
  { hasFilesField := true, files := [{ filename := "a.png" }],
    promptField := none, apiKeyField := some "k" }

/-- The single result entry that `process_images envBase reqPng (some "k")`
produces. -/
def entryW8 : ResultEntry :=
  { result :=
      { success := true,
        preprocessed_path := some "preprocessed/u_a_pre.png",
        gemini_path := some "gemini_edited/u_a_gemini.png",
        error := none,
        processing_time := 1 },
    original_filename := "a.png" }

/-- C2: any exception raised inside the per-image pipeline's `try` block
is caught and converted into a result with `success = false` and the
exception's message as `error`; the Generative Edit Stage wraps and
re-raises transport errors rather than swallowing them; and the batch
loop yields one entry per accepted file regardless of per-file outcomes,
so processing of the remaining files continues. -/
theorem c2_failure_isolation :
    (∀ (env : Env) (p pr k pd gd : String) (r : PResult) (e : String),
      process_image_try env p pr k pd gd (splitextRoot (basename p)) initResult = (r, some e) →
      (process_image env p pr k pd gd).success = false ∧
      (process_image env p pr k pd gd).error = some e) ∧
    (∀ (env : Env) (k pr : String) (img : Img) (e : String),
      env.sdkAvailable = true →
      gemini_try env k GEMINI_MODEL_NAME pr img = Except.error e →
      call_gemini_image_editing env k GEMINI_MODEL_NAME pr (some img) =
        Except.error ("Gemini API error: " ++ e)) ∧
    (∀ (env : Env) (pr k : String) (files : List UploadedFile) (i : Nat),
      (processFiles env pr k files i).length = (files.filter fileAccepted).length) := by
  refine ⟨?_, ?_, ?_⟩
  · intro env p pr k pd gd r e h
    rcases try_cases env p pr k pd gd (splitextRoot (basename p)) with
      ⟨e2, h2⟩ | ⟨e2, h2⟩ | ⟨h2, hc⟩ | ⟨h2, hc⟩ | h2
    · rw [h2] at h
      simp only [Prod.mk.injEq, Option.some.injEq] at h
      obtain ⟨h3, h4⟩ := h
      subst h3
      subst h4
      rw [process_image_eq env p pr k pd gd h2]
      simp [finishResult, initResult]
    · rw [h2] at h
      simp only [Prod.mk.injEq, Option.some.injEq] at h
      obtain ⟨h3, h4⟩ := h
      subst h3
      subst h4
      rw [process_image_eq env p pr k pd gd h2]
      simp [finishResult, initResult]
    · rw [h2] at h
      simp at h
    · rw [h2] at h
      simp at h
    · rw [h2] at h
      simp at h
  · intro env k pr img e hsdk hg
    unfold call_gemini_image_editing
    simp [hsdk, hg]
  · intro env pr k files i
    exact processFiles_length env pr k files i

theorem c2_failure_isolation_witness :
    (process_image envOpenFails ("a.png") ("") ("k") ("pd") ("gd")).success = false ∧
    (process_image envOpenFails ("a.png") ("") ("k") ("pd") ("gd")).error = some ("boom") :=
  c2_failure_isolation.1 envOpenFails ("a.png") ("") ("k") ("pd") ("gd") initResult ("boom")
    (by decide)

/-- C4: for every batch passing validation (files field present,
non-empty resolved credential, at most 10 files) that contains N accepted
files (1 ≤ N), the response is HTTP 200 and its results list has exactly
N entries, one per accepted file, in submission order; files with
disallowed extensions contribute no entry. -/
theorem c4_results_order (env : Env) (req : Request) (envKey : Option String) (N : Nat)
    (hfield : req.hasFilesField = true)
    (hkey : resolvedApiKey req envKey ≠ "")
    (hlen : req.files.length ≤ 10)
    (hN : (req.files.filter fileAccepted).length = N)
    (hN1 : 1 ≤ N) :
    process_images env req envKey =
      Response.ok
        (processFiles env ((req.promptField).getD "") (resolvedApiKey req envKey) req.files 0) ∧
    (processFiles env ((req.promptField).getD "") (resolvedApiKey req envKey) req.files 0).length
      = N ∧
    (processFiles env ((req.promptField).getD "") (resolvedApiKey req envKey) req.files 0).map
        (fun en => en.original_filename) =
      (req.files.filter fileAccepted).map (fun f => env.secure f.filename) := by
  have hne : req.files ≠ [] := by
    intro h0
    rw [h0] at hN
    simp at hN
    omega
  refine ⟨?_, ?_, processFiles_map_filenames env _ _ req.files 0⟩
  · unfold process_images
    rw [if_neg (by simp [hfield]), if_neg hkey, if_neg hne, if_neg (by omega)]
  · rw [processFiles_length]
    exact hN

def reqMix : Request :=
  { hasFilesField := true,
    files := [{ filename := "a.png" }, { filename := "b.gif" }, { filename := "c.jpg" }],
    promptField := none, apiKeyField := some "k" }

theorem c4_results_order_witness :
    process_images envBase reqMix (some ("k")) =
      Response.ok
        (processFiles envBase ((reqMix.promptField).getD "") (resolvedApiKey reqMix (some ("k")))
          reqMix.files 0) ∧
    (processFiles envBase ((reqMix.promptField).getD "") (resolvedApiKey reqMix (some ("k")))
        reqMix.files 0).length = 2 ∧
    (processFiles envBase ((reqMix.promptField).getD "") (resolvedApiKey reqMix (some ("k")))
        reqMix.files 0).map (fun en => en.original_filename) =
      (reqMix.files.filter fileAccepted).map (fun f => envBase.secure f.filename) :=
  c4_results_order envBase reqMix (some ("k")) 2 rfl (by decide) (by decide) (by decide)
    (by decide)

/-- C6: when the preprocessing of an image succeeds, the Generative Edit
Stage is enabled (SDK available, non-empty key) and the remote call
completes with no inline image payload in the response, the result has
`success = false`, `error = "Gemini editing failed"`, no gemini path, and
the preprocessed path still present. -/
theorem c6_no_payload (env : Env) (p pr k pd gd : String) (img d b : Img)
    (hopen : env.openFile p = Except.ok img)
    (hrn : reduce_noise_cv env img = Except.ok d)
    (hbg : remove_background_rembg env d (255, 255, 255, 0) = Except.ok b)
    (hsave : env.saveImage b (pathJoin pd (splitextRoot (basename p) ++ "_pre.png")) =
      Except.ok ())
    (hsdk : env.sdkAvailable = true) (hk : k ≠ "")
    (hg : gemini_try env k GEMINI_MODEL_NAME pr b = Except.ok none) :
    (process_image env p pr k pd gd).success = false ∧
    (process_image env p pr k pd gd).error = some ("Gemini editing failed") ∧
    (process_image env p pr k pd gd).gemini_path = none ∧
    (process_image env p pr k pd gd).preprocessed_path =
      some (pathJoin ("preprocessed") (splitextRoot (basename p) ++ "_pre.png")) := by
  have hcall : call_gemini_image_editing env k GEMINI_MODEL_NAME pr (some b) =
      Except.ok none := by
    unfold call_gemini_image_editing
    simp [hsdk, hg]
  have h2 := try_eq_gem_none env p pr k pd gd (splitextRoot (basename p)) initResult img d b
    hopen hrn hbg hsave ⟨hsdk, hk⟩ hcall
  rw [process_image_eq env p pr k pd gd h2]
  simp [finishResult, initResult]

theorem c6_no_payload_witness :
    (process_image envNoPayload ("a.png") ("p") ("k") ("pre") ("gem")).success = false ∧
    (process_image envNoPayload ("a.png") ("p") ("k") ("pre") ("gem")).error =
      some ("Gemini editing failed") ∧
    (process_image envNoPayload ("a.png") ("p") ("k") ("pre") ("gem")).gemini_path = none ∧
    (process_image envNoPayload ("a.png") ("p") ("k") ("pre") ("gem")).preprocessed_path =
      some (pathJoin ("preprocessed") (splitextRoot (basename ("a.png")) ++ "_pre.png")) :=
  c6_no_payload envNoPayload ("a.png") ("p") ("k") ("pre") ("gem")
    { mode := "RGB", pix := 3 } { mode := "RGB", pix := 3 } { mode := "RGBA", pix := 3 }
    (by decide) (by decide) (by decide) (by decide) rfl (by decide) (by decide)

/-- C7: when the SDK is unavailable or the credential is empty (and the
preprocessing of the image succeeded), the result records the
configuration error "SDK or API key missing" with `success = false`, no
gemini path, and the preprocessed path present; moreover the outcome does
not depend on the remote service at all (no remote call is made), which
distinguishes it from a remote-call failure. -/
theorem c7_config_error (env : Env) (p pr k pd gd : String) (img d b : Img)
    (hcfg : env.sdkAvailable = false ∨ k = "")
    (hopen : env.openFile p = Except.ok img)
    (hrn : reduce_noise_cv env img = Except.ok d)
    (hbg : remove_background_rembg env d (255, 255, 255, 0) = Except.ok b)
    (hsave : env.saveImage b (pathJoin pd (splitextRoot (basename p) ++ "_pre.png")) =
      Except.ok ()) :
    (process_image env p pr k pd gd).success = false ∧
    (process_image env p pr k pd gd).error = some ("SDK or API key missing") ∧
    (process_image env p pr k pd gd).gemini_path = none ∧
    (process_image env p pr k pd gd).preprocessed_path =
      some (pathJoin ("preprocessed") (splitextRoot (basename p) ++ "_pre.png")) ∧
    (∀ r2 : Remote, process_image { env with remote := r2 } p pr k pd gd =
      process_image env p pr k pd gd) := by
  have hcond : ¬(env.sdkAvailable = true ∧ k ≠ "") := by
    intro hc
    rcases hcfg with h | h
    · rw [h] at hc
      exact absurd hc.1 (by decide)
    · exact hc.2 h
  have h2 := try_eq_config env p pr k pd gd (splitextRoot (basename p)) initResult img d b
    hopen hrn hbg hsave hcond
  have h4 := process_image_eq env p pr k pd gd h2
  refine ⟨?_, ?_, ?_, ?_, ?_⟩
  · rw [h4]
    simp [finishResult, initResult]
  · rw [h4]
    simp [finishResult, initResult]
  · rw [h4]
    simp [finishResult, initResult]
  · rw [h4]
    simp [finishResult, initResult]
  · intro r2
    have hcond2 : ¬(({ env with remote := r2 } : Env).sdkAvailable = true ∧ k ≠ "") := hcond
    have h2b := try_eq_config { env with remote := r2 } p pr k pd gd (splitextRoot (basename p))
      initResult img d b hopen hrn hbg hsave hcond2
    have h4b := process_image_eq { env with remote := r2 } p pr k pd gd h2b
    rw [h4, h4b]

theorem c7_config_error_witness :
    (process_image envNoSdk ("a.png") ("p") ("k") ("pre") ("gem")).error =
      some ("SDK or API key missing") ∧
    process_image { envNoSdk with remote := remoteOk } ("a.png") ("p") ("k") ("pre") ("gem") =
      process_image envNoSdk ("a.png") ("p") ("k") ("pre") ("gem") :=
  ⟨(c7_config_error envNoSdk ("a.png") ("p") ("k") ("pre") ("gem")
      { mode := "RGB", pix := 3 } { mode := "RGB", pix := 3 } { mode := "RGBA", pix := 3 }
      (Or.inl rfl) (by decide) (by decide) (by decide) (by decide)).2.1,
   (c7_config_error envNoSdk ("a.png") ("p") ("k") ("pre") ("gem")
      { mode := "RGB", pix := 3 } { mode := "RGB", pix := 3 } { mode := "RGBA", pix := 3 }
      (Or.inl rfl) (by decide) (by decide) (by decide) (by decide)).2.2.2.2 remoteOk⟩

/-- C8: assuming the wall clock does not run backwards, every result
entry of a successful batch response records a non-negative processing
time that is a multiple of 1/100 (i.e. rounded to two decimal places),
even when the image's processing failed. -/
theorem c8_processing_time (env : Env) (req : Request) (envKey : Option String)
    (rs : List ResultEntry)
    (hok : process_images env req envKey = Response.ok rs)
    (hclock : ∀ p, env.timeStart p ≤ env.timeEnd p) :
    ∀ en ∈ rs, 0 ≤ en.result.processing_time ∧
      ∃ n : ℤ, en.result.processing_time = (n : ℚ) / 100 := by
  have hrs : rs =
      processFiles env ((req.promptField).getD "") (resolvedApiKey req envKey) req.files 0 := by
    unfold process_images at hok
    split_ifs at hok
    exact (Response.ok.inj hok).symm
  subst hrs
  intro en hen
  obtain ⟨p, hp⟩ := mem_processFiles env ((req.promptField).getD "")
    (resolvedApiKey req envKey) req.files 0 en hen
  rw [hp, process_image_time]
  constructor
  · exact round2_nonneg _ (by linarith [hclock p])
  · exact ⟨⌊(env.timeEnd p - env.timeStart p) * 100 + 1 / 2⌋, rfl⟩

theorem c8_processing_time_witness :
    0 ≤ entryW8.result.processing_time ∧
    ∃ n : ℤ, entryW8.result.processing_time = (n : ℚ) / 100 :=
  c8_processing_time envBase reqPng (some ("k")) [entryW8]
    (by with_unfolding_all decide) (fun p => by norm_num [envBase]) entryW8
    (List.mem_singleton.mpr rfl)

/-- C10: for every request served to an HTTP 200 response, the credential
passed down to the per-image pipeline is non-empty (an empty resolved
credential is rejected batch-level with HTTP 400 first), and
consequently, with the SDK available, the per-image "SDK or API key
missing" branch can never record its configuration error. -/
theorem c10_key_nonempty (env : Env) (req : Request) (envKey : Option String)
    (rs : List ResultEntry)
    (hok : process_images env req envKey = Response.ok rs) :
    resolvedApiKey req envKey ≠ "" ∧
    (env.sdkAvailable = true → ∀ p bn : String,
      (process_image_try env p ((req.promptField).getD "") (resolvedApiKey req envKey)
          PREPROCESSED_DIR GEMINI_OUTPUT_DIR bn initResult).1.error ≠
        some ("SDK or API key missing")) := by
  have hkey : resolvedApiKey req envKey ≠ "" := by
    intro h0
    unfold process_images at hok
    rw [h0] at hok
    cases hf : req.hasFilesField <;> simp [hf] at hok
  refine ⟨hkey, ?_⟩
  intro hsdk p bn
  rcases try_cases env p ((req.promptField).getD "") (resolvedApiKey req envKey)
      PREPROCESSED_DIR GEMINI_OUTPUT_DIR bn with
    ⟨e, h⟩ | ⟨e, h⟩ | ⟨h, hc⟩ | ⟨h, hc⟩ | h
  · rw [h]
    simp [initResult]
  · rw [h]
    simp [initResult]
  · exact absurd ⟨hsdk, hkey⟩ hc
  · rw [h]
    simp [initResult]
  · rw [h]
    simp [initResult]

theorem c10_key_nonempty_witness :
    resolvedApiKey reqPng (some ("k")) ≠ "" ∧
    (process_image_try envBase ("x.png") ((reqPng.promptField).getD "")
        (resolvedApiKey reqPng (some ("k"))) PREPROCESSED_DIR GEMINI_OUTPUT_DIR ("x")
        initResult).1.error ≠ some ("SDK or API key missing") :=
  ⟨(c10_key_nonempty envBase reqPng (some ("k")) [entryW8] (by with_unfolding_all decide)).1,
   (c10_key_nonempty envBase reqPng (some ("k")) [entryW8]
      (by with_unfolding_all decide)).2 rfl ("x.png") ("x")⟩

end Photo
